import Mathlib

/-!
Verification of the Rucio DID metadata FilterEngine
(`rucio/core/did_meta_plugins/filter_engine.py`).

The engine source file is absent from the sources shipped here; only its test
suite (`src/tests/test_filter_engine.py`) is present.  The definitions below are
therefore modelled from the specification (spec.md, sections 3, 4.1 to 4.7), and
where the specification and the in-repository tests disagree, the tests are
followed and the deviation is recorded in the doc comment of the definition.
-/

/-- Modelled from the spec: the six comparison operators of the filter
language (spec section 3, "Operator"). -/
inductive Op
  | eq
  | ne
  | lt
  | le
  | gt
  | ge
  deriving DecidableEq

/-- Modelled from the spec: naive UTC instants produced by the four accepted
datetime formats (spec section 4.3). -/
structure DateTime where
  year : Nat
  month : Nat
  day : Nat
  hour : Nat
  minute : Nat
  second : Nat
  micro : Nat
  deriving DecidableEq

/-- Modelled from the spec: the `TypedValue` tagged variant (spec section 3).
Floating point literals are kept exactly as the decimal the lexeme denotes:
`float m e` stands for the rational `m / 10 ^ e`. -/
inductive Value
  | int (n : Int)
  | float (m : Int) (e : Nat)
  | bool (b : Bool)
  | date (d : DateTime)
  | str (s : String)
  deriving DecidableEq

/-- Modelled from the spec: error kinds surfaced at construction time
(spec section 7).  `valueError` covers the `ValueError` surface of the Python
engine, `duplicateCriteria` the `DuplicateCriteriaInDIDFilter` exception. -/
inductive FEError
  | invalidSyntax
  | valueError
  | duplicateCriteria
  deriving DecidableEq

/-- A simple triple of the normalized DNF (spec section 3, "Condition").
The key slot holds the raw middle or left token; for literal conditions it is
typecast again at evaluation time. -/
structure Condition where
  key : String
  op : Op
  value : Value
  deriving DecidableEq

-- Decidable equality on `Except`, for evaluating engine results.
deriving instance DecidableEq for Except

/-! ### Character-level parsing primitives -/

def digitVal (c : Char) : Nat := c.toNat - 48

/-- Read exactly `n` decimal digits, returning their value and the rest. -/
def readDigits : Nat → Nat → List Char → Option (Nat × List Char)
  | 0, acc, cs => some (acc, cs)
  | _ + 1, _, [] => none
  | n + 1, acc, c :: cs =>
    if c.isDigit then readDigits n (acc * 10 + digitVal c) cs else none

/-- Expect one given character. -/
def expectChar (c : Char) : List Char → Option (List Char)
  | [] => none
  | x :: xs => if x = c then some xs else none

/-- Consume a maximal run of decimal digits, returning their count, their
value, and the rest. -/
def takeDigitsAux (cnt v : Nat) : List Char → Nat × Nat × List Char
  | [] => (cnt, v, [])
  | c :: cs =>
    if c.isDigit then takeDigitsAux (cnt + 1) (v * 10 + digitVal c) cs
    else (cnt, v, c :: cs)

/-- All-digit nonempty string, as a natural number. -/
def parseNatDigits (cs : List Char) : Option Nat :=
  match takeDigitsAux 0 0 cs with
  | (cnt, v, rest) => if cnt ≠ 0 ∧ rest = [] then some v else none

/-- Modelled from the spec: integer coercion (Python `int(value)`), an
optional sign followed by decimal digits. -/
def parseInt (s : String) : Option Int :=
  match s.data with
  | '-' :: rest => (parseNatDigits rest).map (fun n => -(n : Int))
  | '+' :: rest => (parseNatDigits rest).map (fun n => (n : Int))
  | cs => (parseNatDigits cs).map (fun n => (n : Int))

/-- Modelled from the spec: float coercion for plain decimal literals,
an optional sign, an integer part and an optional fractional part, with at
least one digit overall.  The result is the pair (mantissa, number of
fractional digits). -/
def parseFloat (s : String) : Option (Int × Nat) :=
  let core : List Char → Option (Int × Nat) := fun cs =>
    match takeDigitsAux 0 0 cs with
    | (c1, v1, rest) =>
      match rest with
      | [] => if c1 ≠ 0 then some ((v1 : Int), 0) else none
      | '.' :: frac =>
        match takeDigitsAux 0 0 frac with
        | (c2, v2, rest2) =>
          if rest2 = [] ∧ c1 + c2 ≠ 0 then
            some (((v1 * 10 ^ c2 + v2 : Nat) : Int), c2)
          else none
      | _ => none
  match s.data with
  | '-' :: rest => (core rest).map (fun p => (-p.1, p.2))
  | '+' :: rest => core rest
  | cs => core cs

/-- Modelled from the spec: case-insensitive `true` / `false` boolean
coercion (spec section 4.3, step 2). -/
def parseBool (s : String) : Option Bool :=
  let low := String.mk (s.data.map Char.toLower)
  if low = "true" then some true
  else if low = "false" then some false
  else none

/-- Field-range validation mirroring Python `datetime.strptime`. -/
def validDateTime (d : DateTime) : Bool :=
  1 ≤ d.month ∧ d.month ≤ 12 ∧ 1 ≤ d.day ∧ d.day ≤ 31 ∧
    d.hour ≤ 23 ∧ d.minute ≤ 59 ∧ d.second ≤ 59

/-- Parse `YYYY-MM-DD<sep>HH:MM:SS` optionally followed by `.f{1,6}Z`
(fraction parsed as in Python `%f`). -/
def parseDateTimeCore (sep : Char) (cs : List Char) : Option DateTime := do
  let (y, r) ← readDigits 4 0 cs
  let r ← expectChar '-' r
  let (mo, r) ← readDigits 2 0 r
  let r ← expectChar '-' r
  let (d, r) ← readDigits 2 0 r
  let r ← expectChar sep r
  let (h, r) ← readDigits 2 0 r
  let r ← expectChar ':' r
  let (mi, r) ← readDigits 2 0 r
  let r ← expectChar ':' r
  let (s, r) ← readDigits 2 0 r
  let dt ← match r with
    | [] => some (DateTime.mk y mo d h mi s 0)
    | '.' :: frac =>
      match takeDigitsAux 0 0 frac with
      | (cnt, v, rest) =>
        if 1 ≤ cnt ∧ cnt ≤ 6 ∧ rest = ['Z'] then
          some (DateTime.mk y mo d h mi s (v * 10 ^ (6 - cnt)))
        else none
    | _ => none
  if validDateTime dt then some dt else none

/-- Modelled from the spec: the four accepted datetime formats
(spec section 4.3): `YYYY-MM-DD HH:MM:SS`, `YYYY-MM-DDTHH:MM:SS`,
`YYYY-MM-DD HH:MM:SS.fffZ`, `YYYY-MM-DDTHH:MM:SS.fffZ`. -/
def parseDateTime (s : String) : Option DateTime :=
  match parseDateTimeCore ' ' s.data with
  | some d => some d
  | none => parseDateTimeCore 'T' s.data

/-- Modelled from the spec: untyped-key coercion order, bool then datetime
then int then float, falling back to string (spec section 4.3, step 2). -/
def coerceValue (s : String) : Value :=
  match parseBool s with
  | some b => .bool b
  | none =>
    match parseDateTime s with
    | some d => .date d
    | none =>
      match parseInt s with
      | some n => .int n
      | none =>
        match parseFloat s with
        | some (m, e) => .float m e
        | none => .str s

/-! ### Lexer -/

/-- Split a character list on a separator character (the `;` and `,` group
connectives of spec section 4.2). -/
def splitChar (sep : Char) : List Char → List (List Char)
  | [] => [[]]
  | c :: rest =>
    let r := splitChar sep rest
    if c = sep then [] :: r
    else
      match r with
      | t :: ts => (c :: t) :: ts
      | [] => [[c]]

/-- Strip leading and trailing whitespace. -/
def trimChars (cs : List Char) : List Char :=
  ((cs.dropWhile Char.isWhitespace).reverse.dropWhile Char.isWhitespace).reverse

/-- Push a pending (reversed) term accumulator as a token, dropping it when
empty. -/
def pushTok (acc : List Char) (rest : List (List Char)) : List (List Char) :=
  if acc = [] then rest else acc.reverse :: rest

/-- Modelled from the spec: the maximal-munch operator scanner of the lexer
(spec section 4.1).  Operators are `<=`, `>=`, `!=`, `==`, `<`, `>`, `=`;
every other character, including a lone `!`, accumulates into the current
term. -/
def lexRun : List Char → List Char → List (List Char)
  | [], acc => pushTok acc []
  | '<' :: '=' :: rest, acc => pushTok acc (['<', '='] :: lexRun rest [])
  | '>' :: '=' :: rest, acc => pushTok acc (['>', '='] :: lexRun rest [])
  | '!' :: '=' :: rest, acc => pushTok acc (['!', '='] :: lexRun rest [])
  | '=' :: '=' :: rest, acc => pushTok acc (['=', '='] :: lexRun rest [])
  | '<' :: rest, acc => pushTok acc (['<'] :: lexRun rest [])
  | '>' :: rest, acc => pushTok acc (['>'] :: lexRun rest [])
  | '=' :: rest, acc => pushTok acc (['='] :: lexRun rest [])
  | c :: rest, acc => lexRun rest (c :: acc)

/-- Modelled from the spec: tokenisation of one condition: split around
operators, strip whitespace around every token, and drop empty tokens
(spec sections 4.1 and 6, "whitespace around operators, identifiers, and
values is stripped"). -/
def lexCondition (cs : List Char) : List String :=
  (((lexRun cs []).map trimChars).filter (fun t => !t.isEmpty)).map
    (fun t => String.mk t)

/-- Operator token to operator; both `=` and `==` mean equality
(spec section 4.1). -/
def parseOpStr : String → Option Op
  | "=" => some .eq
  | "==" => some .eq
  | "!=" => some .ne
  | "<" => some .lt
  | "<=" => some .le
  | ">" => some .gt
  | ">=" => some .ge
  | _ => none

/-! ### Validation helpers -/

def isOrderingOp : Op → Bool
  | .eq => false
  | .ne => false
  | _ => true

/-- Upper bounds: `<` and `<=` (spec section 3, forward direction). -/
def isUpperBound : Op → Bool
  | .lt => true
  | .le => true
  | _ => false

/-- Lower bounds: `>` and `>=`. -/
def isLowerBound : Op → Bool
  | .gt => true
  | .ge => true
  | _ => false

/-- Same-direction test for the two operators of a compound inequality
(spec section 3, invariants). -/
def sameDirection (a b : Op) : Bool :=
  (isUpperBound a && isUpperBound b) || (isLowerBound a && isLowerBound b)

/-- `flip` on directional operators (spec section 4.2). -/
def flipOp : Op → Op
  | .lt => .gt
  | .gt => .lt
  | .le => .ge
  | .ge => .le
  | o => o

/-- Wildcard presence: the value contains `*` (spec section 3). -/
def hasWildcard (s : String) : Bool :=
  s.data.contains '*'

/-- Declared types of reserved keys. -/
inductive RType
  | tint
  | tstr
  | tdate
  deriving DecidableEq

/-- Modelled from the spec: the pre-declared reserved keys and their column
types (spec section 3): string-typed `name`, `scope`, `did_type`, `project`;
datetime-typed `created_at`, `updated_at`; integer-typed `length`,
`run_number`. -/
def reservedKeyType (k : String) : Option RType :=
  if k = "name" ∨ k = "scope" ∨ k = "did_type" ∨ k = "project" then some .tstr
  else if k = "created_at" ∨ k = "updated_at" then some .tdate
  else if k = "length" ∨ k = "run_number" then some .tint
  else none

/-- Modelled from the spec: coercion and per-condition validation
(spec sections 4.3 and 4.4): wildcards only with `=` / `!=` and only on
string-typed keys; `name` and `did_type` only with `=` / `!=`; a reserved
key of non-string type whose literal is not coercible to its declared type
is a `ValueError` regardless of `strict`. -/
def mkCondition (strict : Bool) (k : String) (op : Op) (v : String) :
    Except FEError Condition :=
  if hasWildcard v then
    if isOrderingOp op then .error .valueError
    else
      match reservedKeyType k with
      | some .tstr => .ok ⟨k, op, .str v⟩
      | some _ => .error .valueError
      | none => .ok ⟨k, op, .str v⟩
  else
    match reservedKeyType k with
    | none => .ok ⟨k, op, coerceValue v⟩
    | some .tstr =>
      if (k = "name" ∨ k = "did_type") ∧ isOrderingOp op then
        .error .valueError
      else .ok ⟨k, op, .str v⟩
    | some .tint =>
      match parseInt v with
      | some n => .ok ⟨k, op, .int n⟩
      | none => .error .valueError
    | some .tdate =>
      match parseDateTime v with
      | some d => .ok ⟨k, op, .date d⟩
      | none => .error .valueError

/-- Modelled from the spec: translation of one tokenised condition
(spec section 4.2 grammar, section 4.3 legacy rewrites).  Three tokens are a
simple condition, with `created_after=V` rewritten to `created_at >= V` and
`created_before=V` to `created_at <= V`; five tokens are a compound
inequality, expanded into `(k, flip(OP1), a)` and `(k, OP2, b)` after the
direction check; a mixed-direction compound is a `DuplicateCriteriaInDIDFilter`
(spec sections 3 and 9).  Deviation from the spec wording, following
`test_filter_engine.py::TestFilterEngineDummy::test_compound_inequality`:
the middle token of a compound inequality need not be a key; a literal middle
such as `3 > 2 > 1` is accepted. -/
def translateCondition (strict : Bool) : List String → Except FEError (List Condition)
  | [k, o, v] =>
    match parseOpStr o with
    | none => .error .invalidSyntax
    | some op =>
      if k = "created_after" ∧ op = Op.eq then
        match parseDateTime v with
        | some d => .ok [⟨"created_at", Op.ge, .date d⟩]
        | none => .error .valueError
      else if k = "created_before" ∧ op = Op.eq then
        match parseDateTime v with
        | some d => .ok [⟨"created_at", Op.le, .date d⟩]
        | none => .error .valueError
      else
        match mkCondition strict k op v with
        | .ok c => .ok [c]
        | .error e => .error e
  | [a, o1s, k, o2s, b] =>
    match parseOpStr o1s, parseOpStr o2s with
    | some o1, some o2 =>
      if isOrderingOp o1 && isOrderingOp o2 then
        if sameDirection o1 o2 then
          match mkCondition strict k (flipOp o1) a, mkCondition strict k o2 b with
          | .ok c1, .ok c2 => .ok [c1, c2]
          | .error e, _ => .error e
          | _, .error e => .error e
        else .error .duplicateCriteria
      else .error .invalidSyntax
    | _, _ => .error .invalidSyntax
  | _ => .error .invalidSyntax

/-- Translate all conditions of one AND-group, concatenating the expanded
triples. -/
def translateGroup (strict : Bool) : List (List String) → Except FEError (List Condition)
  | [] => .ok []
  | t :: ts =>
    match translateCondition strict t, translateGroup strict ts with
    | .ok c, .ok cs => .ok (c ++ cs)
    | .error e, _ => .error e
    | _, .error e => .error e

/-- Translate every OR-group. -/
def translateGroups (strict : Bool) :
    List (List (List String)) → Except FEError (List (List Condition))
  | [] => .ok []
  | g :: gs =>
    match translateGroup strict g, translateGroups strict gs with
    | .ok c, .ok cs => .ok (c :: cs)
    | .error e, _ => .error e
    | _, .error e => .error e

/-! ### Duplicate-criterion detection and normalization -/

/-- Two conditions on the same key conflict when they are two differing
equality constraints, two lower bounds, or two upper bounds
(spec sections 3, 4.4 and 9). -/
def condsConflict (c d : Condition) : Bool :=
  c.key = d.key ∧
    ((c.op = Op.eq ∧ d.op = Op.eq ∧ c.value ≠ d.value) ∨
      (isLowerBound c.op ∧ isLowerBound d.op) ∨
      (isUpperBound c.op ∧ isUpperBound d.op))

/-- Modelled from the spec: duplicate-criterion detection, confined to one
AND-group (spec section 4.4). -/
def groupHasDuplicate : List Condition → Bool
  | [] => false
  | c :: cs => cs.any (condsConflict c) || groupHasDuplicate cs

/-- Lexicographic order on character lists, by code point. -/
def charListLt : List Char → List Char → Bool
  | [], [] => false
  | [], _ :: _ => true
  | _ :: _, [] => false
  | a :: as, b :: bs =>
    if a.toNat < b.toNat then true
    else if a.toNat = b.toNat then charListLt as bs
    else false

/-- Boolean key order used for the stable sort of an AND-group. -/
def keyLe (a b : String) : Bool :=
  if a = b then true else charListLt a.data b.data

/-- Stable insertion into a key-sorted AND-group. -/
def insertCond (c : Condition) : List Condition → List Condition
  | [] => [c]
  | d :: ds => if keyLe c.key d.key then c :: d :: ds else d :: insertCond c ds

/-- Modelled from the spec: the normalizer sorts conditions inside each
AND-group by key, stably (spec section 4.5). -/
def sortGroup : List Condition → List Condition
  | [] => []
  | c :: cs => insertCond c (sortGroup cs)

/-- A key token references a model attribute (rather than being a literal)
when it is a reserved key or when generic coercion leaves it a plain string
(spec section 4.2, ambiguity resolution). -/
def isKeyToken (t : String) : Bool :=
  (reservedKeyType t).isSome ||
    match coerceValue t with
    | .str _ => true
    | _ => false

/-- The engine's `mandatory_model_attributes`: every key slot of the DNF that
references a key. -/
def mandatoryKeysOf : List (List Condition) → List String
  | [] => []
  | g :: gs => (g.map Condition.key).filter isKeyToken ++ mandatoryKeysOf gs

/-- Modelled from the spec: the engine after eager construction
(spec section 3, lifecycle): the immutable normalized DNF plus the list of
referenced model attributes. -/
structure FilterEngine where
  filters : List (List Condition)
  mandatoryModelAttributes : List String
  deriving DecidableEq

/-- Modelled from the spec: `FilterEngine.__init__` / `new(source, options)`
(spec sections 4.2 to 4.5 and 6), absent from the sources here: split the
input on `;` into OR-groups and on `,` into conditions, tokenise, translate
and expand each condition, sort each AND-group, and run duplicate-criterion
detection per AND-group. -/
def FilterEngine.make (input : String) (strict : Bool) :
    Except FEError FilterEngine :=
  match translateGroups strict
      ((splitChar ';' input.data).map
        (fun og => (splitChar ',' og).map lexCondition)) with
  | .error e => .error e
  | .ok groups =>
    let sorted := groups.map sortGroup
    if sorted.any groupHasDuplicate then .error .duplicateCriteria
    else .ok ⟨sorted, mandatoryKeysOf sorted⟩

/-! ### Typed comparison and the literal evaluator -/

/-- Numeric view of a value: `int`, `float` and `bool` (Python booleans are
numeric) become a mantissa and a power-of-ten denominator. -/
def valueNum : Value → Option (Int × Nat)
  | .int n => some (n, 0)
  | .float m e => some (m, e)
  | .bool b => some (if b then 1 else 0, 0)
  | _ => none

/-- Monotone encoding of a datetime, for comparisons. -/
def dtEncode (d : DateTime) : Nat :=
  ((((d.year * 13 + d.month) * 32 + d.day) * 24 + d.hour) * 60 + d.minute)
      * 60000000 + d.second * 1000000 + d.micro

/-- Typed equality: numeric values compare as rationals, datetimes and
strings structurally; values of incomparable kinds are unequal. -/
def valueEq (a b : Value) : Bool :=
  match valueNum a, valueNum b with
  | some (m1, e1), some (m2, e2) => m1 * (10 : Int) ^ e2 = m2 * (10 : Int) ^ e1
  | _, _ =>
    match a, b with
    | .str s, .str t => s = t
    | .date d, .date e => d = e
    | _, _ => false

/-- Typed strict order; values of incomparable kinds never compare
(spec section 4.6, casting failure yields false). -/
def valueLt (a b : Value) : Bool :=
  match valueNum a, valueNum b with
  | some (m1, e1), some (m2, e2) => m1 * (10 : Int) ^ e2 < m2 * (10 : Int) ^ e1
  | _, _ =>
    match a, b with
    | .str s, .str t => s < t
    | .date d, .date e => dtEncode d < dtEncode e
    | _, _ => false

/-- Apply an operator to two typed values (spec section 4.7). -/
def applyOp : Op → Value → Value → Bool
  | .eq, a, b => valueEq a b
  | .ne, a, b => !valueEq a b
  | .lt, a, b => valueLt a b
  | .le, a, b => valueLt a b || valueEq a b
  | .gt, a, b => valueLt b a
  | .ge, a, b => valueLt b a || valueEq a b

/-- One condition of a literal-only filter: the raw key slot is typecast and
the operator applied to the two typed values (spec section 4.7). -/
def evalCondition (c : Condition) : Bool :=
  applyOp c.op (coerceValue c.key) c.value

/-- Modelled from the spec: `evaluate()`, the literal evaluator
(spec sections 4.7 and 6): errors when any condition references a key,
otherwise the disjunction over AND-groups of the conjunction of their
conditions. -/
def FilterEngine.evaluate (e : FilterEngine) : Except FEError Bool :=
  match e.mandatoryModelAttributes with
  | _ :: _ => .error .valueError
  | [] => .ok (e.filters.any fun g => g.all evalCondition)

/-! ### Query compilation semantics -/

/-- Fuel-driven glob matcher: `*` matches any character sequence, every
other pattern character matches itself (spec sections 3 and 4.6, `*`
becomes the SQL `%`). -/
def globMatchFuel : Nat → List Char → List Char → Bool
  | 0, _, _ => false
  | fuel + 1, p, s =>
    match p with
    | [] => s.isEmpty
    | '*' :: ps =>
      globMatchFuel fuel ps s ||
        match s with
        | [] => false
        | _ :: cs => globMatchFuel fuel ('*' :: ps) cs
    | c :: ps =>
      match s with
      | [] => false
      | x :: cs => c = x && globMatchFuel fuel ps cs

/-- Glob matching of a wildcard pattern against a stored string. -/
def globStr (pat s : String) : Bool :=
  globMatchFuel (pat.data.length + s.data.length + 1) pat.data s.data

/-- Is the value a string containing a wildcard? -/
def Value.isWildcardStr : Value → Bool
  | .str s => hasWildcard s
  | _ => false

/-- A row of the backend data model: the reserved typed columns (an absent
key is SQL NULL) and the JSON metadata blob (an absent key is a NULL
`json_extract`). -/
structure DidRow where
  attrs : List (String × Value)
  meta : List (String × Value)
  deriving DecidableEq

/-- Column or blob lookup. -/
def lookupKV (l : List (String × Value)) (k : String) : Option Value :=
  match l with
  | [] => none
  | p :: ps => if p.1 = k then some p.2 else lookupKV ps k

/-- Modelled from the spec: the predicate compiled for a reserved column
(spec section 4.6 table): wildcard `=` is LIKE, wildcard `!=` is NOT LIKE OR
IS NULL, plain `!=` is `!= OR IS NULL` (negation includes NULL), any other
operator on a NULL or incomparable cell yields false. -/
def colMatches (c : Condition) (cur : Option Value) : Bool :=
  if c.value.isWildcardStr then
    match c.op, c.value with
    | Op.eq, .str p =>
      match cur with
      | some (.str s) => globStr p s
      | _ => false
    | Op.ne, .str p =>
      match cur with
      | none => true
      | some (.str s) => !globStr p s
      | some _ => false
    | _, _ => false
  else
    match c.op with
    | Op.ne =>
      match cur with
      | none => true
      | some x => !valueEq x c.value
    | op =>
      match cur with
      | none => false
      | some x => applyOp op x c.value

/-- Modelled from the spec: the predicate compiled for a non-reserved key
against the JSON blob (spec section 4.6 table).  Deviation from the spec
table, following `test_filter_engine.py::TestFilterEngineReal`
(`test_operators_equal_not_equal`, JSON plugin, and `test_wildcards`, JSON
plugin): `!=` over a JSON extraction does NOT include rows whose extraction
is NULL; an entity whose blob lacks the key never matches. -/
def jsonMatches (c : Condition) (cur : Option Value) : Bool :=
  if c.value.isWildcardStr then
    match c.op, c.value with
    | Op.eq, .str p =>
      match cur with
      | some (.str s) => globStr p s
      | _ => false
    | Op.ne, .str p =>
      match cur with
      | some (.str s) => !globStr p s
      | _ => false
    | _, _ => false
  else
    match cur with
    | none => false
    | some x => applyOp c.op x c.value

/-- Modelled from the spec: compilation of one condition of the DNF
(spec section 4.6): a reserved key compiles against its typed column, a
non-reserved key against the JSON blob when a JSON column is provided. -/
def condMatches (useJson : Bool) (c : Condition) (row : DidRow) : Bool :=
  match reservedKeyType c.key with
  | some _ => colMatches c (lookupKV row.attrs c.key)
  | none =>
    if useJson then jsonMatches c (lookupKV row.meta c.key) else false

/-- Modelled from the spec: the row semantics of the query emitted by
`create_sqla_query` (spec section 4.6): the disjunction over AND-groups of
the conjunction of their compiled predicates. -/
def queryMatches (useJson : Bool) (filters : List (List Condition))
    (row : DidRow) : Bool :=
  filters.any fun g => g.all fun c => condMatches useJson c row

/-- The compiled query of an engine, as a row predicate. -/
def FilterEngine.queryMatchesRow (e : FilterEngine) (useJson : Bool)
    (row : DidRow) : Bool :=
  queryMatches useJson e.filters row

/-! ### Helper lemmas -/

/-- An input with no group connectives is translated as one single-condition
AND-group. -/
theorem make_single_eq (s : String) (strict : Bool)
    (h1 : splitChar ';' s.data = [s.data])
    (h2 : splitChar ',' s.data = [s.data]) :
    FilterEngine.make s strict =
      match translateCondition strict (lexCondition s.data) with
      | .error err => .error err
      | .ok g =>
        if groupHasDuplicate (sortGroup g) then .error .duplicateCriteria
        else .ok ⟨[sortGroup g], mandatoryKeysOf [sortGroup g]⟩ := by
  unfold FilterEngine.make
  rw [h1]
  simp only [List.map_cons, List.map_nil]
  rw [h2]
  simp only [List.map_cons, List.map_nil]
  cases htc : translateCondition strict (lexCondition s.data) with
  | error err => simp [translateGroups, translateGroup, htc]
  | ok g =>
    simp [translateGroups, translateGroup, htc, List.any_cons, List.any_nil]

/-- A successfully built condition keeps the requested key and operator. -/
theorem mkCondition_shape (strict : Bool) (k : String) (op : Op) (v : String)
    (c : Condition) (h : mkCondition strict k op v = .ok c) :
    c.key = k ∧ c.op = op := by
  unfold mkCondition at h
  repeat' split at h
  all_goals first
    | exact Except.noConfusion h
    | (injection h with h2; rw [← h2]; exact ⟨rfl, rfl⟩)

/-- The stable AND-group sort keeps a two-condition group with a shared key
in input order. -/
theorem sortGroup_pair_same_key (c d : Condition) (h : c.key = d.key) :
    sortGroup [c, d] = [c, d] := by
  simp [sortGroup, insertCond, keyLe, h]

/-! ### Claims -/

/-- C1: for every `!=` condition over a nullable reserved attribute column,
whether the value is plain or a wildcard pattern, the compiled query matches
every row whose column is NULL. -/
theorem c1_negation_includes_null (useJson : Bool) (k : String) (v : Value)
    (row : DidRow) (hres : (reservedKeyType k).isSome = true)
    (hnull : lookupKV row.attrs k = none) :
    queryMatches useJson [[⟨k, Op.ne, v⟩]] row = true := by
  obtain ⟨rt, hrt⟩ := Option.isSome_iff_exists.mp hres
  simp only [queryMatches, List.any_cons, List.any_nil, List.all_cons,
    List.all_nil, Bool.or_false, Bool.and_true, condMatches, hrt, hnull]
  cases v with
  | str s =>
    unfold colMatches
    split
    · rfl
    · rfl
  | _ => rfl

/-- Witness for C1: a row with `project` NULL matches `project != *test*`,
and a row with `run_number` NULL matches `run_number != 1`. -/
theorem c1_negation_includes_null_witness :
    queryMatches false [[⟨"project", Op.ne, Value.str "*test*"⟩]]
        ⟨[("run_number", Value.int 1)], []⟩ = true ∧
      queryMatches true [[⟨"run_number", Op.ne, Value.int 1⟩]]
        ⟨[("project", Value.str "x")], []⟩ = true :=
  ⟨c1_negation_includes_null false "project" (Value.str "*test*")
      ⟨[("run_number", Value.int 1)], []⟩ (by decide) (by decide),
    c1_negation_includes_null true "run_number" (Value.int 1)
      ⟨[("project", Value.str "x")], []⟩ (by decide) (by decide)⟩

/-- Counterexample to C2: `testkeyint1!=1` compiles (JSON column present) to
a predicate that does NOT match an entity whose metadata blob has no value
for `testkeyint1`. -/
theorem c2_counterexample_json_ne_null :
    FilterEngine.make "testkeyint1!=1" false =
        .ok ⟨[[⟨"testkeyint1", Op.ne, Value.int 1⟩]], ["testkeyint1"]⟩ ∧
      FilterEngine.queryMatchesRow
        ⟨[[⟨"testkeyint1", Op.ne, Value.int 1⟩]], ["testkeyint1"]⟩ true
        ⟨[], [("testkeyint2", Value.int 2)]⟩ = false :=
  ⟨by decide, by decide⟩

/-- C2 as amended: for a non-reserved key compiled against the JSON column,
`k != v` with a non-wildcard value matches exactly the entities whose JSON
extraction of `k` is non-NULL and differs from `v`; entities whose blob has
no value for `k` are excluded. -/
theorem c2_json_ne_excludes_null (k : String) (v : Value) (row : DidRow)
    (hres : reservedKeyType k = none) (hnw : v.isWildcardStr = false) :
    (queryMatches true [[⟨k, Op.ne, v⟩]] row = true ↔
      ∃ x, lookupKV row.meta k = some x ∧ valueEq x v = false) := by
  simp only [queryMatches, List.any_cons, List.any_nil, List.all_cons,
    List.all_nil, Bool.or_false, Bool.and_true, condMatches, hres, if_true,
    jsonMatches, hnw]
  cases hcur : lookupKV row.meta k with
  | none => simp
  | some x => simp [applyOp, Bool.not_eq_true']

/-- Witness for C2 (amended): an entity carrying `testkeyint1 = 2` matches
`testkeyint1 != 1`. -/
theorem c2_json_ne_excludes_null_witness :
    queryMatches true [[⟨"testkeyint1", Op.ne, Value.int 1⟩]]
      ⟨[], [("testkeyint1", Value.int 2)]⟩ = true :=
  (c2_json_ne_excludes_null "testkeyint1" (Value.int 1)
      ⟨[], [("testkeyint1", Value.int 2)]⟩ (by decide) (by decide)).mpr
    ⟨Value.int 2, by decide, by decide⟩

/-- Counterexample to C5: a compound inequality whose middle term is itself
a literal, `3 > 2 > 1`, IS accepted: construction succeeds and produces an
engine. -/
theorem c5_counterexample_literal_middle :
    FilterEngine.make "3 > 2 > 1" false =
      .ok ⟨[[⟨"2", Op.lt, Value.int 3⟩, ⟨"2", Op.gt, Value.int 1⟩]], []⟩ := by
  decide

/-- C5 as amended: the middle token of a compound inequality need not be a
key; a literal middle is accepted, the compound expands with the middle token
in the key slot, and the engine evaluates it as the conjunction of the two
comparisons: `3 > 2 > 1` evaluates to true and `1 > 2 > 3` to false. -/
theorem c5_literal_middle_accepted :
    (FilterEngine.make "3 > 2 > 1" false).bind FilterEngine.evaluate =
        .ok true ∧
      (FilterEngine.make "1 > 2 > 3" false).bind FilterEngine.evaluate =
        .ok false :=
  ⟨by decide, by decide⟩

/-- C3: every input string of the form `a OP1 k OP2 b` whose two directional
operators have mixed direction (one of `<` / `<=` together with one of
`>` / `>=`) makes construction fail with `DuplicateCriteriaInDIDFilter`:
no engine is produced. -/
theorem c3_mixed_direction_compound_rejected (s a k b o1s o2s : String)
    (o1 o2 : Op)
    (h1 : splitChar ';' s.data = [s.data])
    (h2 : splitChar ',' s.data = [s.data])
    (hlex : lexCondition s.data = [a, o1s, k, o2s, b])
    (ho1 : parseOpStr o1s = some o1) (ho2 : parseOpStr o2s = some o2)
    (hmix : ((o1 = Op.lt ∨ o1 = Op.le) ∧ (o2 = Op.gt ∨ o2 = Op.ge)) ∨
      ((o1 = Op.gt ∨ o1 = Op.ge) ∧ (o2 = Op.lt ∨ o2 = Op.le))) :
    FilterEngine.make s false = .error .duplicateCriteria := by
  rw [make_single_eq s false h1 h2, hlex]
  have hcond : translateCondition false [a, o1s, k, o2s, b] =
      .error .duplicateCriteria := by
    rcases hmix with ⟨hx | hx, hy | hy⟩ | ⟨hx | hx, hy | hy⟩ <;>
      subst hx <;> subst hy <;>
      simp [translateCondition, ho1, ho2, isOrderingOp, sameDirection,
        isUpperBound, isLowerBound]
  rw [hcond]

/-- Witness for C3: `1 < 2 > 3` is rejected with
`DuplicateCriteriaInDIDFilter`. -/
theorem c3_mixed_direction_compound_rejected_witness :
    FilterEngine.make "1 < 2 > 3" false = .error .duplicateCriteria :=
  c3_mixed_direction_compound_rejected "1 < 2 > 3" "1" "2" "3" "<" ">"
    Op.lt Op.gt (by decide) (by decide) (by decide) (by decide) (by decide)
    (Or.inl ⟨Or.inl rfl, Or.inl rfl⟩)

/-- C4: every accepted compound inequality `a OP1 k OP2 b` of equal
direction expands, inside one single AND-group, into exactly the two simple
triples `(k, flip(OP1), a)` and `(k, OP2, b)`, with the two literals coerced
by the engine's coercion for key `k`. -/
theorem c4_compound_expansion (s a k b o1s o2s : String) (o1 o2 : Op)
    (strict : Bool) (e : FilterEngine)
    (h1 : splitChar ';' s.data = [s.data])
    (h2 : splitChar ',' s.data = [s.data])
    (hlex : lexCondition s.data = [a, o1s, k, o2s, b])
    (ho1 : parseOpStr o1s = some o1) (ho2 : parseOpStr o2s = some o2)
    (hsame : sameDirection o1 o2 = true)
    (hok : FilterEngine.make s strict = .ok e) :
    ∃ va vb, mkCondition strict k (flipOp o1) a = .ok ⟨k, flipOp o1, va⟩ ∧
      mkCondition strict k o2 b = .ok ⟨k, o2, vb⟩ ∧
      e.filters = [[⟨k, flipOp o1, va⟩, ⟨k, o2, vb⟩]] := by
  rw [make_single_eq s strict h1 h2, hlex] at hok
  have hord1 : isOrderingOp o1 = true := by
    cases o1 <;> cases o2 <;>
      simp_all [sameDirection, isUpperBound, isLowerBound, isOrderingOp]
  have hord2 : isOrderingOp o2 = true := by
    cases o1 <;> cases o2 <;>
      simp_all [sameDirection, isUpperBound, isLowerBound, isOrderingOp]
  simp only [translateCondition, ho1, ho2, hord1, hord2, hsame,
    Bool.and_self, if_true] at hok
  cases hmk1 : mkCondition strict k (flipOp o1) a with
  | error err => rw [hmk1] at hok; simp at hok
  | ok c1 =>
    cases hmk2 : mkCondition strict k o2 b with
    | error err => rw [hmk1, hmk2] at hok; simp at hok
    | ok c2 =>
      obtain ⟨hk1, hop1⟩ := mkCondition_shape strict k (flipOp o1) a c1 hmk1
      obtain ⟨hk2, hop2⟩ := mkCondition_shape strict k o2 b c2 hmk2
      obtain ⟨ck1, cop1, cv1⟩ := c1
      obtain ⟨ck2, cop2, cv2⟩ := c2
      dsimp only at hk1 hop1 hk2 hop2
      subst ck1; subst cop1; subst ck2; subst cop2
      rw [hmk1, hmk2] at hok
      have hok2 :
          (if groupHasDuplicate
              (sortGroup [(⟨k, flipOp o1, cv1⟩ : Condition), ⟨k, o2, cv2⟩]) =
              true then
            (Except.error FEError.duplicateCriteria :
              Except FEError FilterEngine)
          else
            Except.ok
              ⟨[sortGroup [⟨k, flipOp o1, cv1⟩, ⟨k, o2, cv2⟩]],
                mandatoryKeysOf
                  [sortGroup [⟨k, flipOp o1, cv1⟩, ⟨k, o2, cv2⟩]]⟩) =
          Except.ok e := hok
      rw [sortGroup_pair_same_key ⟨k, flipOp o1, cv1⟩ ⟨k, o2, cv2⟩ rfl]
        at hok2
      refine ⟨cv1, cv2, rfl, rfl, ?_⟩
      split at hok2
      · exact Except.noConfusion hok2
      · injection hok2 with he
        rw [← he]

/-- Witness for C4: `1 < TestKeyword4 <= 2` expands to
`(TestKeyword4, >, 1)` and `(TestKeyword4, <=, 2)` in one AND-group. -/
theorem c4_compound_expansion_witness :
    ∃ va vb,
      mkCondition false "TestKeyword4" Op.gt "1" =
          .ok ⟨"TestKeyword4", Op.gt, va⟩ ∧
        mkCondition false "TestKeyword4" Op.le "2" =
          .ok ⟨"TestKeyword4", Op.le, vb⟩ ∧
        FilterEngine.filters
            ⟨[[⟨"TestKeyword4", Op.gt, Value.int 1⟩,
                ⟨"TestKeyword4", Op.le, Value.int 2⟩]],
              ["TestKeyword4", "TestKeyword4"]⟩ =
          [[⟨"TestKeyword4", Op.gt, va⟩, ⟨"TestKeyword4", Op.le, vb⟩]] :=
  c4_compound_expansion "1 < TestKeyword4 <= 2" "1" "TestKeyword4" "2" "<"
    "<=" Op.lt Op.le false
    ⟨[[⟨"TestKeyword4", Op.gt, Value.int 1⟩,
        ⟨"TestKeyword4", Op.le, Value.int 2⟩]],
      ["TestKeyword4", "TestKeyword4"]⟩
    (by decide) (by decide) (by decide) (by decide) (by decide) (by decide)
    (by decide)

/-- The canonical token of each operator. -/
def opToken : Op → String
  | .eq => "="
  | .ne => "!="
  | .lt => "<"
  | .le => "<="
  | .gt => ">"
  | .ge => ">="

/-- C6: with `strict_coerce` false, engine construction still raises
`ValueError` for every reserved-key misuse of these kinds: `name` or
`did_type` with any ordering operator, a non-string reserved key with a
non-coercible literal (`length >= test`), and a wildcard value with an
ordering operator (`name OP *`) or on a non-string-typed key
(`length = *`). -/
theorem c6_reserved_key_misuse_value_error (o : Op)
    (ho : o = Op.lt ∨ o = Op.le ∨ o = Op.gt ∨ o = Op.ge) :
    FilterEngine.make ("did_type " ++ opToken o ++ " 1") false =
        .error .valueError ∧
      FilterEngine.make ("name " ++ opToken o ++ " 1") false =
        .error .valueError ∧
      FilterEngine.make ("name " ++ opToken o ++ " *") false =
        .error .valueError ∧
      FilterEngine.make "length >= test" false = .error .valueError ∧
      FilterEngine.make "length = *" false = .error .valueError := by
  rcases ho with rfl | rfl | rfl | rfl <;>
    exact ⟨by decide, by decide, by decide, by decide, by decide⟩

/-- Witness for C6: `did_type >= 1` raises `ValueError` even with
`strict_coerce` false. -/
theorem c6_reserved_key_misuse_value_error_witness :
    FilterEngine.make ("did_type " ++ opToken Op.ge ++ " 1") false =
      .error .valueError :=
  (c6_reserved_key_misuse_value_error Op.ge
    (Or.inr (Or.inr (Or.inr rfl)))).1

/-- C7: for every value token accepted by one of the four datetime formats,
`created_after=V` parses to the single-triple DNF
`[[(created_at, >=, d)]]` and `created_before=V` to
`[[(created_at, <=, d)]]`; no condition mentioning `created_after` or
`created_before` remains. -/
theorem c7_created_after_before_rewrite :
    (∀ (s V : String) (d : DateTime) (strict : Bool),
        splitChar ';' s.data = [s.data] → splitChar ',' s.data = [s.data] →
        lexCondition s.data = ["created_after", "=", V] →
        parseDateTime V = some d →
        FilterEngine.make s strict =
          .ok ⟨[[⟨"created_at", Op.ge, .date d⟩]], ["created_at"]⟩) ∧
      ∀ (s V : String) (d : DateTime) (strict : Bool),
        splitChar ';' s.data = [s.data] → splitChar ',' s.data = [s.data] →
        lexCondition s.data = ["created_before", "=", V] →
        parseDateTime V = some d →
        FilterEngine.make s strict =
          .ok ⟨[[⟨"created_at", Op.le, .date d⟩]], ["created_at"]⟩ := by
  constructor <;>
  · intro s V d strict h1 h2 hlex hdt
    rw [make_single_eq s strict h1 h2, hlex]
    simp [translateCondition, parseOpStr, hdt, sortGroup, insertCond,
      groupHasDuplicate, mandatoryKeysOf, isKeyToken, reservedKeyType]

/-- Witness for C7: all four formats of `1900-01-01 00:00:00`, for both
legacy keys. -/
theorem c7_created_after_before_rewrite_witness :
    FilterEngine.make "created_after=1900-01-01 00:00:00" false =
        .ok ⟨[[⟨"created_at", Op.ge, .date ⟨1900, 1, 1, 0, 0, 0, 0⟩⟩]],
          ["created_at"]⟩ ∧
      FilterEngine.make "created_after=1900-01-01T00:00:00" false =
        .ok ⟨[[⟨"created_at", Op.ge, .date ⟨1900, 1, 1, 0, 0, 0, 0⟩⟩]],
          ["created_at"]⟩ ∧
      FilterEngine.make "created_after=1900-01-01 00:00:00.000Z" false =
        .ok ⟨[[⟨"created_at", Op.ge, .date ⟨1900, 1, 1, 0, 0, 0, 0⟩⟩]],
          ["created_at"]⟩ ∧
      FilterEngine.make "created_after=1900-01-01T00:00:00.000Z" false =
        .ok ⟨[[⟨"created_at", Op.ge, .date ⟨1900, 1, 1, 0, 0, 0, 0⟩⟩]],
          ["created_at"]⟩ ∧
      FilterEngine.make "created_before=1900-01-01T00:00:00.000Z" false =
        .ok ⟨[[⟨"created_at", Op.le, .date ⟨1900, 1, 1, 0, 0, 0, 0⟩⟩]],
          ["created_at"]⟩ :=
  ⟨c7_created_after_before_rewrite.1 "created_after=1900-01-01 00:00:00"
      "1900-01-01 00:00:00" ⟨1900, 1, 1, 0, 0, 0, 0⟩ false (by decide)
      (by decide) (by decide) (by decide),
    c7_created_after_before_rewrite.1 "created_after=1900-01-01T00:00:00"
      "1900-01-01T00:00:00" ⟨1900, 1, 1, 0, 0, 0, 0⟩ false (by decide)
      (by decide) (by decide) (by decide),
    c7_created_after_before_rewrite.1
      "created_after=1900-01-01 00:00:00.000Z" "1900-01-01 00:00:00.000Z"
      ⟨1900, 1, 1, 0, 0, 0, 0⟩ false (by decide) (by decide) (by decide)
      (by decide),
    c7_created_after_before_rewrite.1
      "created_after=1900-01-01T00:00:00.000Z" "1900-01-01T00:00:00.000Z"
      ⟨1900, 1, 1, 0, 0, 0, 0⟩ false (by decide) (by decide) (by decide)
      (by decide),
    c7_created_after_before_rewrite.2
      "created_before=1900-01-01T00:00:00.000Z" "1900-01-01T00:00:00.000Z"
      ⟨1900, 1, 1, 0, 0, 0, 0⟩ false (by decide) (by decide) (by decide)
      (by decide)⟩

/-- C8: a condition value under a key with no declared reserved type is
coerced by trying, in order, bool, then datetime, then int, then float,
finally falling back to string; hence `0` is an int, `0.5` a float, `test`
a string, `FALSE` / `true` / `TRUE` booleans, and
`1900-01-01T00:00:00.000Z` a datetime. -/
theorem c8_coercion_order :
    (∀ (s : String) (b : Bool), parseBool s = some b →
        coerceValue s = Value.bool b) ∧
      (∀ (s : String) (d : DateTime), parseBool s = none →
        parseDateTime s = some d → coerceValue s = Value.date d) ∧
      (∀ (s : String) (n : Int), parseBool s = none →
        parseDateTime s = none → parseInt s = some n →
        coerceValue s = Value.int n) ∧
      (∀ (s : String) (m : Int) (e : Nat), parseBool s = none →
        parseDateTime s = none → parseInt s = none →
        parseFloat s = some (m, e) → coerceValue s = Value.float m e) ∧
      (∀ s : String, parseBool s = none → parseDateTime s = none →
        parseInt s = none → parseFloat s = none →
        coerceValue s = Value.str s) ∧
      coerceValue "0" = Value.int 0 ∧
      coerceValue "0.5" = Value.float 5 1 ∧
      coerceValue "test" = Value.str "test" ∧
      coerceValue "FALSE" = Value.bool false ∧
      coerceValue "False" = Value.bool false ∧
      coerceValue "false" = Value.bool false ∧
      coerceValue "true" = Value.bool true ∧
      coerceValue "True" = Value.bool true ∧
      coerceValue "TRUE" = Value.bool true ∧
      coerceValue "1900-01-01T00:00:00.000Z" =
        Value.date ⟨1900, 1, 1, 0, 0, 0, 0⟩ := by
  refine ⟨?_, ?_, ?_, ?_, ?_, by decide, by decide, by decide, by decide,
    by decide, by decide, by decide, by decide, by decide, by decide⟩
  · intro s b h
    simp [coerceValue, h]
  · intro s d hb hd
    simp [coerceValue, hb, hd]
  · intro s n hb hd hi
    simp [coerceValue, hb, hd, hi]
  · intro s m e hb hd hi hf
    simp [coerceValue, hb, hd, hi, hf]
  · intro s hb hd hi hf
    simp [coerceValue, hb, hd, hi, hf]

/-- Witness for C8: the bool branch fires first, case-insensitively. -/
theorem c8_coercion_order_witness : coerceValue "tRuE" = Value.bool true :=
  c8_coercion_order.1 "tRuE" true (by decide)

/-- C9: on an engine whose conditions are all literal, `evaluate` returns
exactly the disjunction over the AND-groups of the conjunction of their
conditions, each computed by applying the operator to the two typecast
values, compound inequalities having been expanded into the conjunction of
their two comparisons; e.g. `1 > 2, 4 > 3 > 2; True=True` evaluates to true
and `1 > 2, 4 > 3 > 2; True=False` to false. -/
theorem c9_literal_evaluation :
    (∀ (e : FilterEngine) (b : Bool), FilterEngine.evaluate e = .ok b →
        (b = true ↔ ∃ g ∈ e.filters, ∀ c ∈ g, evalCondition c = true)) ∧
      (FilterEngine.make "1 > 2, 4 > 3 > 2; True=True" false).bind
          FilterEngine.evaluate = .ok true ∧
      (FilterEngine.make "1 > 2, 4 > 3 > 2; True=False" false).bind
          FilterEngine.evaluate = .ok false := by
  refine ⟨?_, by decide, by decide⟩
  intro e b h
  unfold FilterEngine.evaluate at h
  split at h
  · exact Except.noConfusion h
  · injection h with hb
    rw [← hb]
    simp [List.any_eq_true, List.all_eq_true]

/-- Witness for C9: a one-group engine evaluating to true yields a matching
AND-group. -/
theorem c9_literal_evaluation_witness :
    true = true ↔
      ∃ g ∈ [[(⟨"1", Op.lt, Value.int 2⟩ : Condition)]],
        ∀ c ∈ g, evalCondition c = true :=
  c9_literal_evaluation.1 ⟨[[⟨"1", Op.lt, Value.int 2⟩]], []⟩ true
    (by decide)

/-- C10: duplicate-criterion detection is confined to a single AND-group:
distinct OR-groups may constrain the same key to different equality values
and construction succeeds (while the same pair inside one AND-group is
rejected), and the compiled query matches a row exactly when some OR-group
matches it, i.e. it returns the union of the rows matching each OR-group. -/
theorem c10_or_groups_union :
    FilterEngine.make "run_number = 0; run_number = 1" true =
        .ok ⟨[[⟨"run_number", Op.eq, Value.int 0⟩],
            [⟨"run_number", Op.eq, Value.int 1⟩]],
          ["run_number", "run_number"]⟩ ∧
      FilterEngine.make "name = A; name = B; name = C" true =
        .ok ⟨[[⟨"name", Op.eq, Value.str "A"⟩],
            [⟨"name", Op.eq, Value.str "B"⟩],
            [⟨"name", Op.eq, Value.str "C"⟩]], ["name", "name", "name"]⟩ ∧
      FilterEngine.make "run_number = 0, run_number = 1" true =
        .error .duplicateCriteria ∧
      ∀ (useJson : Bool) (filters : List (List Condition)) (row : DidRow),
        queryMatches useJson filters row = true ↔
          ∃ g ∈ filters, ∀ c ∈ g, condMatches useJson c row = true := by
  refine ⟨by decide, by decide, by decide, ?_⟩
  intro useJson filters row
  simp [queryMatches, List.any_eq_true, List.all_eq_true]

/-- Witness for C10: a row with `run_number = 1` matches the OR of the two
equality groups through its second group. -/
theorem c10_or_groups_union_witness :
    queryMatches false
        [[⟨"run_number", Op.eq, Value.int 0⟩],
          [⟨"run_number", Op.eq, Value.int 1⟩]]
        ⟨[("run_number", Value.int 1)], []⟩ = true :=
  (c10_or_groups_union.2.2.2 false
      [[⟨"run_number", Op.eq, Value.int 0⟩],
        [⟨"run_number", Op.eq, Value.int 1⟩]]
      ⟨[("run_number", Value.int 1)], []⟩).mpr
    ⟨[⟨"run_number", Op.eq, Value.int 1⟩], by decide, by decide⟩
